import Mathlib

/-!
Verification development for the Flask/WSGI educational repository
(`src/backend/wsgi.py` and `src/backend/app.py`).

The Python source is shallowly embedded: pure fragments become Lean
functions; the side-effecting parts (logging, memory sampling, signal
dispatch, process exit) are modelled as explicit effect traces and
state-passing functions.  Machine-level concerns do not arise: the code
manipulates small integers and strings only.
-/

namespace Wsgi

/-! ## Embedding of Python `int(str)` parsing

`validate_port_number` in `wsgi.py` calls `int(port)` on the raw string
taken from the `PORT` environment variable.  Python's `int` applied to a
`str` strips surrounding whitespace, accepts an optional sign, and then a
nonempty digit string in which single underscores may appear between
digits.  We embed that acceptor (restricted to ASCII whitespace; the code
only ever receives ASCII environment strings).
-/

def isPyDigit (c : Char) : Bool := 48 ≤ c.toNat && c.toNat ≤ 57

def isPySpace (c : Char) : Bool :=
  c.toNat = 32 || c.toNat = 9 || c.toNat = 10 || c.toNat = 13 ||
  c.toNat = 11 || c.toNat = 12

/-- Numeric value of a digit character. -/
def digitVal (c : Char) : Nat := c.toNat - 48

/-- Accumulator step when consuming one more decimal digit. -/
def stepAcc (a : Nat) (c : Char) : Nat := a * 10 + digitVal c

/-- Consume digits (with single underscores allowed between digits),
accumulating the value; `none` on any malformed character. -/
def pyDigitsAux : List Char → Nat → Option Nat
  | [], a => some a
  | c :: rest, a =>
    if isPyDigit c then pyDigitsAux rest (stepAcc a c)
    else if c = '_' then
      match rest with
      | [] => none
      | d :: _ => if isPyDigit d then pyDigitsAux rest a else none
    else none

/-- A digit string accepted by Python `int`: nonempty and starting with a
digit (a leading underscore is rejected). -/
def pyDigits : List Char → Option Nat
  | [] => none
  | c :: rest => if isPyDigit c then pyDigitsAux (c :: rest) 0 else none

/-- Strip surrounding whitespace, as Python `int` does before parsing. -/
def stripChars (l : List Char) : List Char :=
  ((l.dropWhile isPySpace).reverse.dropWhile isPySpace).reverse

/-- Sign handling of Python `int`: an optional leading `+` or `-`. -/
def pyIntOfChars (l : List Char) : Option Int :=
  if l.head? = some '+' then (pyDigits l.tail).map (fun n => (n : Int))
  else if l.head? = some '-' then (pyDigits l.tail).map (fun n => -(n : Int))
  else (pyDigits l).map (fun n => (n : Int))

/-- Embedding of Python `int(s)` for a string `s`: `some n` when the call
succeeds, `none` when it raises `ValueError`. -/
def pyInt (s : String) : Option Int := pyIntOfChars (stripChars s.data)

/-! ## `validate_port_number` (wsgi.py lines 299-331)

The Python function converts the string with `int`, raises `ValueError`
when conversion fails or the value is outside `[1, 65535]` (both wrapped
as `ValueError("Invalid port configuration: ...")` by the `except`
clause), logs a non-fatal privileged-port warning for values below 1024,
and returns the port.  The embedding returns the port together with the
privileged-port-warning flag, or the error message.
-/

def validate_port_number (port : String) : Except String (Int × Bool) :=
  match pyInt port with
  | none => .error "Invalid port configuration: invalid literal for int"
  | some n =>
    if n < 1 ∨ n > 65535 then
      .error "Invalid port configuration: port is outside valid range (1-65535)"
    else
      .ok (n, decide (n < 1024))

/-! ## Decimal representation

`decimalString p` is the canonical decimal string of a natural number,
used to state claim C3 ("the decimal string of p"). -/

def digitChar (d : Nat) : Char := Char.ofNat (48 + d)

def decDigits (n : Nat) : List Char :=
  if n = 0 then []
  else decDigits (n / 10) ++ [digitChar (n % 10)]
termination_by n
decreasing_by exact Nat.div_lt_self (Nat.pos_of_ne_zero (by assumption)) (by decide)

def decimalString (n : Nat) : String :=
  if n = 0 then "0" else ⟨decDigits n⟩

/-! ## Effect traces

The side effects performed by the lifecycle code in `wsgi.py` are recorded
as an explicit trace.  `log` and `sampleMemory` record logging calls and
calls to `log_memory_usage`; `setShutdownEvent` records
`shutdown_event.set()`; `callGracefulShutdown` records a call to
`perform_graceful_shutdown` with its `signal_name` argument;
`defaultExcepthook` records delegation to `sys.__excepthook__`.  The
constructors `processExit` and `stopRouter` are part of the action
vocabulary (exiting the process, stopping/force-terminating the WSGI
server) so that their absence from a trace is expressible; the shutdown
path of `wsgi.py` never emits them.
-/

inductive Level where
  | info
  | warning
  | error
deriving DecidableEq, Repr

inductive Effect where
  | log (lvl : Level) (msg : String)
  | sampleMemory (context : String)
  | setShutdownEvent
  | callGracefulShutdown (signalName : String)
  | defaultExcepthook
  | processExit (code : Nat)
  | stopRouter
deriving DecidableEq, Repr

def Effect.isLog : Effect → Bool
  | .log _ _ => true
  | _ => false

def Effect.isShutdownCall : Effect → Bool
  | .callGracefulShutdown _ => true
  | _ => false

def Effect.isProcessExit : Effect → Bool
  | .processExit _ => true
  | _ => false

def Effect.isStopRouter : Effect → Bool
  | .stopRouter => true
  | _ => false

/-- Effects that are pure observability: logging, memory sampling, and the
(idempotent) setting of the `threading.Event`. -/
def Effect.benign : Effect → Bool
  | .log _ _ => true
  | .sampleMemory _ => true
  | .setShutdownEvent => true
  | _ => false

/-! ## `log_memory_usage` (wsgi.py lines 334-373)

The Python function reads process metrics with `psutil` inside a
`try`/`except Exception` block: on success it logs the metrics
(plus a warning when RSS exceeds the 75 MB target), on any failure it
logs a warning and swallows the exception.  The `psutil` read is modelled
by an `Except` input (`psutil_read`); the metrics it can yield are a
`MemoryInfo`.  Besides its effect trace the embedding returns the
telemetry the call produced as a `ResourceSample` with optional numeric
fields (`none` = no value was obtained); the Python function logs these
values rather than returning them. -/

structure MemoryInfo where
  rss : Nat
  vms : Nat
  memoryPercent : Nat
  pid : Nat
deriving DecidableEq, Repr

structure ResourceSample where
  residentBytes : Option Nat
  virtualBytes : Option Nat
  percentOfSystem : Option Nat
  pid : Option Nat
  label : String
deriving DecidableEq, Repr

/-- The `psutil.Process()` / `memory_info()` calls: `m = none` models the
environment in which they raise. -/
def psutil_read (m : Option MemoryInfo) : Except String MemoryInfo :=
  match m with
  | some info => .ok info
  | none => .error "psutil process metrics unavailable"

def log_memory_usage (context : String) (m : Option MemoryInfo) :
    List Effect × ResourceSample :=
  match psutil_read m with
  | .ok info =>
    (Effect.sampleMemory context ::
      [Effect.log .info "Memory Usage:",
       Effect.log .info "RSS (Resident Set Size)",
       Effect.log .info "VMS (Virtual Memory Size)",
       Effect.log .info "Memory Percentage",
       Effect.log .info "Process ID"] ++
      (if info.rss > 75 * 1024 * 1024 then
        [Effect.log .warning "Memory usage exceeds 75MB target",
         Effect.log .warning "Monitor memory usage to prevent resource exhaustion"]
      else
        [Effect.log .info "Memory usage within acceptable limits (<75MB)"]) ++
      [Effect.log .info "psutil provides comprehensive process monitoring"],
     { residentBytes := some info.rss, virtualBytes := some info.vms,
       percentOfSystem := some info.memoryPercent, pid := some info.pid,
       label := context })
  | .error _ =>
    (Effect.sampleMemory context ::
      [Effect.log .warning "Memory usage monitoring error",
       Effect.log .warning "Memory monitoring is optional but valuable"],
     { residentBytes := none, virtualBytes := none,
       percentOfSystem := none, pid := none, label := context })

/-! ## `perform_graceful_shutdown` (wsgi.py lines 258-296)

The Python function only logs: it announces the shutdown, logs a cleanup
message when the global `flask_app` is set, calls `log_memory_usage`, and
logs completion, all inside a `try`/`except` whose body contains nothing
but those logging calls.  It installs no deadline, stops no server, and
does not exit the process. -/

def perform_graceful_shutdown (flaskAppExists : Bool) (m : Option MemoryInfo)
    (signal_name : String) : List Effect :=
  [Effect.log .info ("Graceful shutdown initiated by " ++ signal_name),
   Effect.log .info "Shutdown procedures starting...",
   Effect.log .info "Graceful shutdown preserves data integrity"] ++
  (if flaskAppExists then
    [Effect.log .info "Cleaning up Flask application context...",
     Effect.log .info "Flask application cleanup completed"]
  else []) ++
  (log_memory_usage "Graceful Shutdown" m).1 ++
  [Effect.log .info "Graceful shutdown procedures completed successfully",
   Effect.log .info "Clean shutdown enables reliable container orchestration",
   Effect.log .info "WSGI application shutdown complete"]

/-! ## `signal_handler` (wsgi.py lines 202-234)

The nested handler registered by `setup_signal_handlers`.  Its body, run
directly inside the OS-level signal dispatch, sets the module-global
`signal_received`, logs two lines, sets `shutdown_event`, calls
`log_memory_usage`, and then calls `perform_graceful_shutdown` — there is
no `triggered` guard, so every delivery runs the whole body again. -/

def SIGTERM : Nat := 15
def SIGINT : Nat := 2
def SIGUSR1 : Nat := 10
def SIGUSR2 : Nat := 12

/-- The `signal_names` dictionary lookup with its `Signal-{signum}`
default. -/
def signal_names (signum : Nat) : String :=
  if signum = SIGTERM then "SIGTERM"
  else if signum = SIGINT then "SIGINT"
  else if signum = SIGUSR1 then "SIGUSR1"
  else if signum = SIGUSR2 then "SIGUSR2"
  else "Signal-" ++ toString signum

/-- The module-global mutable state of `wsgi.py` read and written by the
handler: `signal_received`, `shutdown_event`, and whether the global
`flask_app` has been set. -/
structure WsgiState where
  signal_received : Bool
  shutdown_event : Bool
  flaskAppExists : Bool
deriving DecidableEq, Repr

def signal_handler (st : WsgiState) (m : Option MemoryInfo) (signum : Nat) :
    WsgiState × List Effect :=
  let st1 : WsgiState := { st with signal_received := true }
  let name := signal_names signum
  let st2 : WsgiState := { st1 with shutdown_event := true }
  (st2,
    Effect.log .info (name ++ " signal received: Initiating graceful shutdown...") ::
    Effect.log .info "Signal handlers enable clean container shutdown" ::
    Effect.setShutdownEvent ::
    ((log_memory_usage ("Signal Handler (" ++ name ++ ")") m).1 ++
     (Effect.callGracefulShutdown name ::
      perform_graceful_shutdown st2.flaskAppExists m name)))

/-! ## `setup_signal_handlers` (wsgi.py lines 236-256)

The four `signal.signal` registrations run sequentially inside one
`try`; `SIGUSR1`/`SIGUSR2` are attempted only when the platform has the
attribute (`hasattr`).  An `OSError` raised by any registration aborts
the rest of the `try` block and is caught by the single `except OSError`,
which logs a warning and returns normally.  `Platform` supplies which
attributes exist and which registrations raise; `register_all_raw` is the
`try` body (its `error` carries the signals registered before the raise),
and `setup_signal_handlers` is the whole function, returning the list of
signals whose handler is installed plus the log trace. -/

structure Platform where
  hasSIGUSR1 : Bool
  hasSIGUSR2 : Bool
  registerRaises : Nat → Bool

def register_all_raw (p : Platform) : Except (List Nat × String) (List Nat) :=
  if p.registerRaises SIGTERM then .error ([], "OSError")
  else if p.registerRaises SIGINT then .error ([SIGTERM], "OSError")
  else if p.hasSIGUSR1 && p.registerRaises SIGUSR1 then
    .error ([SIGTERM, SIGINT], "OSError")
  else
    let r1 := [SIGTERM, SIGINT] ++ (if p.hasSIGUSR1 then [SIGUSR1] else [])
    if p.hasSIGUSR2 && p.registerRaises SIGUSR2 then .error (r1, "OSError")
    else .ok (r1 ++ (if p.hasSIGUSR2 then [SIGUSR2] else []))

def setup_signal_handlers (p : Platform) : List Nat × List Effect :=
  match register_all_raw p with
  | .ok l =>
    (l, [Effect.log .info "Python signal handlers registered successfully",
         Effect.log .info "Signals handled: SIGTERM, SIGINT, SIGUSR1, SIGUSR2",
         Effect.log .info "Signal handlers replace process.on patterns"])
  | .error (l, _) =>
    (l, [Effect.log .warning "Signal handler registration warning",
         Effect.log .warning "Some signals may not be available on all platforms"])

/-! ## `create_wsgi_application` (wsgi.py lines 78-144)

Inside a `try`, the function reads `FLASK_ENV`, `HOST`, and `PORT` from
the environment (with defaults `production`, `0.0.0.0`, `8000`),
validates only the port, then calls `create_app(config_name=flask_env)`
and configures it.  The host string is used exactly as returned by
`os.getenv`: it is never trimmed or checked.  Any exception (in
particular the `ValueError` from `validate_port_number`) is caught,
logged, and re-raised as `RuntimeError`, so the factory either yields a
configured application or fails before `create_app` was ever called.
`createAppCalled` records whether `create_app` (the request router) was
invoked. -/

structure OsEnv where
  FLASK_ENV : Option String
  HOST : Option String
  PORT : Option String

structure ConfiguredApp where
  flask_env : String
  host : String
  port : Int
deriving DecidableEq, Repr

structure CreateResult where
  result : Except String ConfiguredApp
  createAppCalled : Bool
deriving Repr

def create_wsgi_application (e : OsEnv) : CreateResult :=
  let flask_env := e.FLASK_ENV.getD "production"
  let host := e.HOST.getD "0.0.0.0"
  match validate_port_number (e.PORT.getD "8000") with
  | .error msg =>
    { result := .error ("WSGI application initialization failed: " ++ msg),
      createAppCalled := false }
  | .ok (port, _) =>
    { result := .ok { flask_env := flask_env, host := host, port := port },
      createAppCalled := true }

/-! ## `handle_uncaught_exceptions` / `exception_handler` (wsgi.py lines 432-474)

The installed `sys.excepthook`.  A `KeyboardInterrupt` is delegated to
`sys.__excepthook__` and nothing else happens; any other exception type
is logged, `log_memory_usage("Uncaught Exception")` is called, a
traceback is logged when `FLASK_ENV=development`, and
`perform_graceful_shutdown("UNCAUGHT_EXCEPTION")` — the same function the
signal handler calls — is invoked.  After the hook returns, CPython
terminates the process with exit status 1, which
`uncaught_exception_outcome` records. -/

inductive PyExc where
  | keyboardInterrupt
  | other (typeName : String) (msg : String)
deriving DecidableEq, Repr

def exception_handler (flask_env : Option String) (flaskAppExists : Bool)
    (m : Option MemoryInfo) (exc : PyExc) : List Effect :=
  match exc with
  | .keyboardInterrupt => [Effect.defaultExcepthook]
  | .other typeName msg =>
    [Effect.log .error "Uncaught Exception detected in WSGI application:",
     Effect.log .error ("Exception type: " ++ typeName),
     Effect.log .error ("Exception message: " ++ msg),
     Effect.log .error "Proper exception handling prevents silent failures"] ++
    (log_memory_usage "Uncaught Exception" m).1 ++
    (if flask_env = some "development" then
      [Effect.log .error "Exception traceback:"]
    else []) ++
    [Effect.log .error "Initiating graceful shutdown after uncaught exception"] ++
    (Effect.callGracefulShutdown "UNCAUGHT_EXCEPTION" ::
     perform_graceful_shutdown flaskAppExists m "UNCAUGHT_EXCEPTION")

/-- Exit status of the interpreter once an unhandled exception has passed
through `sys.excepthook`: CPython terminates the process with status 1
(for any exception other than `SystemExit`). -/
def uncaught_exception_outcome (flask_env : Option String)
    (flaskAppExists : Bool) (m : Option MemoryInfo) (exc : PyExc) :
    List Effect × Nat :=
  (exception_handler flask_env flaskAppExists m exc, 1)

/-! ## The `__main__` startup flow (wsgi.py lines 479-513)

Running `python wsgi.py` installs the excepthook, registers the signal
handlers, and calls `create_wsgi_application()`.  When that raises (the
only failure modelled here: port validation), the `RuntimeError` is
unhandled, reaches the installed excepthook with `flask_app` still unset,
and the interpreter exits with status 1.  When it succeeds, the process
continues (in development mode `application.run` serves and blocks; in
production mode the script only logs) — recorded as `exitCode = none`,
since no exit is performed by this code.  `routerStarted` is
`createAppCalled` from the factory. -/

structure MainOutcome where
  exitCode : Option Nat
  routerStarted : Bool
  effects : List Effect

def wsgi_main (e : OsEnv) (p : Platform) (m : Option MemoryInfo) : MainOutcome :=
  let setup := setup_signal_handlers p
  let c := create_wsgi_application e
  match c.result with
  | .error msg =>
    { exitCode := some 1, routerStarted := c.createAppCalled,
      effects := setup.2 ++
        (uncaught_exception_outcome e.FLASK_ENV c.createAppCalled m
          (.other "RuntimeError" msg)).1 }
  | .ok _ =>
    { exitCode := none, routerStarted := c.createAppCalled,
      effects := setup.2 }

/-! ## `hello_route_handler` (app.py lines 367-424)

The Flask handler for `GET /hello`.  Its `try` body builds the JSON
object `{'message': 'Hello world', 'timestamp': <now>, 'status':
'success'}`, sets status code 200 and the `Content-Type` /
`X-API-Version` headers.  The `except` branch (reachable only if
response construction itself raised) returns a 500 JSON error.  `now` is
the `datetime.now().isoformat()` string; `fault = some e` models an
exception raised while building the response. -/

structure HttpResponse where
  status_code : Nat
  body : List (String × String)
  headers : List (String × String)
deriving DecidableEq, Repr

def hello_route_handler (now : String) (fault : Option String) : HttpResponse :=
  match fault with
  | none =>
    { status_code := 200,
      body := [("message", "Hello world"), ("timestamp", now),
               ("status", "success")],
      headers := [("Content-Type", "application/json"), ("X-API-Version", "1.0")] }
  | some _ =>
    { status_code := 500,
      body := [("status", "error"),
               ("message", "Internal server error in hello endpoint"),
               ("timestamp", now)],
      headers := [] }

/-- Success projection of an `Except` value. -/
def exceptToOpt {ε α : Type} : Except ε α → Option α
  | .ok a => some a
  | .error _ => none

/-! ### Parsing lemmas -/

theorem digitVal_digitChar {d : Nat} (h : d < 10) : digitVal (digitChar d) = d := by
  interval_cases d <;> decide

theorem isPyDigit_digitChar {d : Nat} (h : d < 10) : isPyDigit (digitChar d) = true := by
  interval_cases d <;> decide

theorem not_isPySpace_of_isPyDigit {c : Char} (h : isPyDigit c = true) :
    isPySpace c = false := by
  simp only [isPyDigit, Bool.and_eq_true, decide_eq_true_eq] at h
  simp only [isPySpace, Bool.or_eq_false_iff, decide_eq_false_iff_not]
  omega

theorem ne_plus_of_isPyDigit {c : Char} (h : isPyDigit c = true) : c ≠ '+' := by
  intro hc
  subst hc
  simp [isPyDigit] at h

theorem ne_minus_of_isPyDigit {c : Char} (h : isPyDigit c = true) : c ≠ '-' := by
  intro hc
  subst hc
  simp [isPyDigit] at h

theorem pyDigitsAux_all_digits (l : List Char) (hl : ∀ c ∈ l, isPyDigit c = true) :
    ∀ a, pyDigitsAux l a = some (l.foldl stepAcc a) := by
  induction l with
  | nil => intro a; rfl
  | cons c rest ih =>
    intro a
    have hc : isPyDigit c = true := hl c (List.mem_cons_self c rest)
    have hrest : ∀ x ∈ rest, isPyDigit x = true := fun x hx => hl x (List.mem_cons_of_mem c hx)
    simp only [pyDigitsAux, hc, if_true, List.foldl_cons]
    exact ih hrest (stepAcc a c)

theorem decDigits_all_digits (n : Nat) : ∀ c ∈ decDigits n, isPyDigit c = true := by
  induction n using Nat.strong_induction_on with
  | _ n ih =>
    intro c hc
    rw [decDigits] at hc
    by_cases h : n = 0
    · simp [h] at hc
    · simp only [h, if_false, List.mem_append, List.mem_singleton] at hc
      rcases hc with hc | hc
      · exact ih (n / 10) (Nat.div_lt_self (Nat.pos_of_ne_zero h) (by decide)) c hc
      · subst hc
        exact isPyDigit_digitChar (Nat.mod_lt n (by decide))

theorem decDigits_foldl (n : Nat) :
    ∀ a, (decDigits n).foldl stepAcc a = a * 10 ^ (decDigits n).length + n := by
  induction n using Nat.strong_induction_on with
  | _ n ih =>
    intro a
    rw [decDigits]
    by_cases h : n = 0
    · simp [h]
    · have hlt : n / 10 < n := Nat.div_lt_self (Nat.pos_of_ne_zero h) (by decide)
      simp only [h, if_false, List.foldl_append, List.foldl_cons, List.foldl_nil,
        List.length_append, List.length_cons, List.length_nil, Nat.zero_add]
      rw [ih (n / 10) hlt a]
      have hmod : digitVal (digitChar (n % 10)) = n % 10 :=
        digitVal_digitChar (Nat.mod_lt n (by decide))
      have hdm : 10 * (n / 10) + n % 10 = n := Nat.div_add_mod n 10
      simp only [stepAcc, hmod]
      calc (a * 10 ^ (decDigits (n / 10)).length + n / 10) * 10 + n % 10
          = a * (10 ^ (decDigits (n / 10)).length * 10) + (10 * (n / 10) + n % 10) := by ring
        _ = a * 10 ^ ((decDigits (n / 10)).length + 1) + n := by rw [hdm, pow_succ]

theorem decDigits_ne_nil {n : Nat} (h : n ≠ 0) : decDigits n ≠ [] := by
  rw [decDigits]
  simp [h]

theorem dropWhile_eq_self_of_none {p : Char → Bool} {l : List Char}
    (h : ∀ c ∈ l, p c = false) : l.dropWhile p = l := by
  cases l with
  | nil => rfl
  | cons c t => simp [List.dropWhile_cons, h c (List.mem_cons_self c t)]

theorem stripChars_eq_self {l : List Char} (h : ∀ c ∈ l, isPySpace c = false) :
    stripChars l = l := by
  unfold stripChars
  rw [dropWhile_eq_self_of_none h]
  rw [dropWhile_eq_self_of_none (fun c hc => h c (List.mem_reverse.mp hc))]
  exact List.reverse_reverse l

/-- Round trip: Python `int` applied to the canonical decimal string of a
natural number recovers that number. -/
theorem pyInt_decimalString (p : Nat) : pyInt (decimalString p) = some (p : Int) := by
  by_cases h : p = 0
  · subst h; decide
  · have hdata : (decimalString p).data = decDigits p := by
      unfold decimalString
      simp [h]
    have hdig := decDigits_all_digits p
    have hstrip : stripChars (decDigits p) = decDigits p :=
      stripChars_eq_self (fun c hc => not_isPySpace_of_isPyDigit (hdig c hc))
    unfold pyInt
    rw [hdata, hstrip]
    obtain ⟨c, t, hct⟩ : ∃ c t, decDigits p = c :: t := by
      cases hd : decDigits p with
      | nil => exact absurd hd (decDigits_ne_nil h)
      | cons c t => exact ⟨c, t, rfl⟩
    have hc : isPyDigit c = true := hdig c (by rw [hct]; exact List.mem_cons_self c t)
    have hplus : c ≠ '+' := ne_plus_of_isPyDigit hc
    have hminus : c ≠ '-' := ne_minus_of_isPyDigit hc
    rw [hct]
    unfold pyIntOfChars
    simp only [List.head?_cons, Option.some.injEq, hplus, hminus, if_false]
    have hpd : pyDigits (c :: t) = some ((c :: t).foldl stepAcc 0) := by
      simp only [pyDigits, hc, if_true]
      exact pyDigitsAux_all_digits (c :: t) (by rw [← hct]; exact hdig) 0
    rw [hpd]
    have hfold : (c :: t).foldl stepAcc 0 = p := by
      have := decDigits_foldl p 0
      rw [hct] at this
      simpa using this
    simp [hfold]

/-! ### Trace lemmas -/

theorem benign_no_shutdownCall :
    ∀ e : Effect, e.benign = true → e.isShutdownCall = false := by
  intro e h
  cases e <;> simp_all [Effect.benign, Effect.isShutdownCall]

theorem benign_no_processExit :
    ∀ e : Effect, e.benign = true → e.isProcessExit = false := by
  intro e h
  cases e <;> simp_all [Effect.benign, Effect.isProcessExit]

theorem benign_no_stopRouter :
    ∀ e : Effect, e.benign = true → e.isStopRouter = false := by
  intro e h
  cases e <;> simp_all [Effect.benign, Effect.isStopRouter]

theorem countP_eq_zero_of_all_benign {l : List Effect} (h : l.all Effect.benign = true)
    {p : Effect → Bool} (hp : ∀ e : Effect, e.benign = true → p e = false) :
    l.countP p = 0 := by
  rw [List.countP_eq_zero]
  intro a ha
  simp [hp a (List.all_eq_true.mp h a ha)]

theorem log_memory_usage_all_benign (ctx : String) (m : Option MemoryInfo) :
    (log_memory_usage ctx m).1.all Effect.benign = true := by
  cases m with
  | none => rfl
  | some info =>
    by_cases hr : info.rss > 75 * 1024 * 1024 <;>
      simp [log_memory_usage, psutil_read, hr, Effect.benign]

theorem perform_graceful_shutdown_all_benign (fa : Bool) (m : Option MemoryInfo)
    (name : String) :
    (perform_graceful_shutdown fa m name).all Effect.benign = true := by
  cases fa <;>
    simp [perform_graceful_shutdown, Effect.benign, log_memory_usage_all_benign]

theorem sampleMemory_mem_log_memory_usage (ctx : String) (m : Option MemoryInfo) :
    Effect.sampleMemory ctx ∈ (log_memory_usage ctx m).1 := by
  cases m <;> simp [log_memory_usage, psutil_read]

/-- One delivery of a signal executes `perform_graceful_shutdown` exactly
once (there is no guard suppressing it, and the shutdown procedure itself
never re-enters). -/
theorem signal_handler_shutdownCalls (st : WsgiState) (m : Option MemoryInfo)
    (signum : Nat) :
    (signal_handler st m signum).2.countP Effect.isShutdownCall = 1 := by
  have h1 := countP_eq_zero_of_all_benign
    (log_memory_usage_all_benign ("Signal Handler (" ++ signal_names signum ++ ")") m)
    benign_no_shutdownCall
  have h2 := countP_eq_zero_of_all_benign
    (perform_graceful_shutdown_all_benign st.flaskAppExists m (signal_names signum))
    benign_no_shutdownCall
  simp [signal_handler, List.countP_cons, List.countP_append, Effect.isShutdownCall,
    h1, h2]

theorem signal_handler_marker_mem (st : WsgiState) (m : Option MemoryInfo)
    (signum : Nat) :
    Effect.callGracefulShutdown (signal_names signum) ∈ (signal_handler st m signum).2 := by
  simp [signal_handler]

theorem signal_handler_no_processExit (st : WsgiState) (m : Option MemoryInfo)
    (signum : Nat) :
    (signal_handler st m signum).2.countP Effect.isProcessExit = 0 := by
  have h1 := countP_eq_zero_of_all_benign
    (log_memory_usage_all_benign ("Signal Handler (" ++ signal_names signum ++ ")") m)
    benign_no_processExit
  have h2 := countP_eq_zero_of_all_benign
    (perform_graceful_shutdown_all_benign st.flaskAppExists m (signal_names signum))
    benign_no_processExit
  simp [signal_handler, List.countP_cons, List.countP_append, Effect.isProcessExit,
    h1, h2]

theorem signal_handler_no_stopRouter (st : WsgiState) (m : Option MemoryInfo)
    (signum : Nat) :
    (signal_handler st m signum).2.countP Effect.isStopRouter = 0 := by
  have h1 := countP_eq_zero_of_all_benign
    (log_memory_usage_all_benign ("Signal Handler (" ++ signal_names signum ++ ")") m)
    benign_no_stopRouter
  have h2 := countP_eq_zero_of_all_benign
    (perform_graceful_shutdown_all_benign st.flaskAppExists m (signal_names signum))
    benign_no_stopRouter
  simp [signal_handler, List.countP_cons, List.countP_append, Effect.isStopRouter,
    h1, h2]

/-! ## Claim theorems -/

/-- C1 counterexample: the claim says a second termination signal after
the first is a no-op and the shutdown sequence runs exactly once per
process.  On the code it is false: delivering SIGTERM and then SIGINT
from the initial module state executes `perform_graceful_shutdown`
twice, and the second execution is attributed to the second signal
(`SIGINT`), not the first. -/
theorem C1_counterexample :
    ((signal_handler ⟨false, false, true⟩ none SIGTERM).2 ++
      (signal_handler (signal_handler ⟨false, false, true⟩ none SIGTERM).1
        none SIGINT).2).countP Effect.isShutdownCall = 2 ∧
    Effect.callGracefulShutdown "SIGINT" ∈
      (signal_handler (signal_handler ⟨false, false, true⟩ none SIGTERM).1
        none SIGINT).2 := by
  decide

/-- C1 (amended): `signal_handler` has no one-shot guard.  Every delivery
sets `signal_received` and `shutdown_event` (idempotently) and executes
the complete shutdown procedure again: each of two successive deliveries
contributes exactly one `perform_graceful_shutdown` execution, and the
second execution carries the second signal's name. -/
theorem C1_theorem (st : WsgiState) (m : Option MemoryInfo) (s1 s2 : Nat) :
    (signal_handler st m s1).2.countP Effect.isShutdownCall = 1 ∧
    (signal_handler (signal_handler st m s1).1 m s2).2.countP
      Effect.isShutdownCall = 1 ∧
    Effect.callGracefulShutdown (signal_names s2) ∈
      (signal_handler (signal_handler st m s1).1 m s2).2 ∧
    (signal_handler st m s1).1.signal_received = true ∧
    (signal_handler st m s1).1.shutdown_event = true := by
  refine ⟨signal_handler_shutdownCalls st m s1,
    signal_handler_shutdownCalls (signal_handler st m s1).1 m s2,
    signal_handler_marker_mem (signal_handler st m s1).1 m s2, ?_, ?_⟩ <;>
      simp [signal_handler]

/-- C2 counterexample: the claim says that after a termination signal the
process exits with code 0 (drain complete before the 10-second deadline)
or exits with code 1 after force-terminating the router.  On the code it
is false: a SIGTERM delivery whose shutdown procedure runs to completion
(nothing is in flight) produces a trace with no process exit and no
router stop at all. -/
theorem C2_counterexample :
    (signal_handler ⟨false, false, true⟩ (some ⟨52428800, 104857600, 2, 1⟩)
      SIGTERM).2.countP Effect.isProcessExit = 0 ∧
    (signal_handler ⟨false, false, true⟩ (some ⟨52428800, 104857600, 2, 1⟩)
      SIGTERM).2.countP Effect.isStopRouter = 0 := by
  decide

/-- C2 (amended): the shutdown path triggered by a termination signal is
logging-only.  `perform_graceful_shutdown` emits only logging and
memory-sampling effects, and the whole handler trace contains no process
exit and no router stop: the code implements no 10-second drain
deadline, never force-terminates the server, and sets no exit code. -/
theorem C2_theorem (st : WsgiState) (m : Option MemoryInfo) (signum : Nat) :
    (perform_graceful_shutdown st.flaskAppExists m (signal_names signum)).all
      Effect.benign = true ∧
    (signal_handler st m signum).2.countP Effect.isProcessExit = 0 ∧
    (signal_handler st m signum).2.countP Effect.isStopRouter = 0 :=
  ⟨perform_graceful_shutdown_all_benign st.flaskAppExists m (signal_names signum),
   signal_handler_no_processExit st m signum,
   signal_handler_no_stopRouter st m signum⟩

/-- C6 counterexample: the claim says the code run directly inside the
OS-level signal handler performs no logging and defers all heavier work
to a separate thread.  On the code it is false: a single SIGTERM
delivery performs logging calls, a memory sample, and the entire
graceful-shutdown procedure inline in the handler. -/
theorem C6_counterexample :
    0 < (signal_handler ⟨false, false, true⟩ none SIGTERM).2.countP Effect.isLog ∧
    Effect.sampleMemory "Signal Handler (SIGTERM)" ∈
      (signal_handler ⟨false, false, true⟩ none SIGTERM).2 ∧
    Effect.callGracefulShutdown "SIGTERM" ∈
      (signal_handler ⟨false, false, true⟩ none SIGTERM).2 := by
  decide

/-- C6 (amended): for every signal delivery the OS-level handler itself
performs logging, takes a memory sample (`log_memory_usage`), and runs
the full `perform_graceful_shutdown` procedure inline; no work is
deferred to a separate shutdown-sequencer thread. -/
theorem C6_theorem (st : WsgiState) (m : Option MemoryInfo) (signum : Nat) :
    0 < (signal_handler st m signum).2.countP Effect.isLog ∧
    Effect.sampleMemory ("Signal Handler (" ++ signal_names signum ++ ")") ∈
      (signal_handler st m signum).2 ∧
    Effect.callGracefulShutdown (signal_names signum) ∈
      (signal_handler st m signum).2 := by
  refine ⟨?_, ?_, signal_handler_marker_mem st m signum⟩
  · simp [signal_handler, List.countP_cons, Effect.isLog]
  · simp [signal_handler, sampleMemory_mem_log_memory_usage]

/-- C3: port validation is correct.  For every p in [1, 65535] applied to
the decimal string of p it returns p (with the non-fatal privileged-port
warning flag set exactly when p < 1024); for every string that Python
`int` cannot parse, and for every string parsing to a value outside
[1, 65535], it fails with a configuration error. -/
theorem C3_theorem :
    (∀ p : Nat, 1 ≤ p → p ≤ 65535 →
      validate_port_number (decimalString p) =
        .ok ((p : Int), decide ((p : Int) < 1024))) ∧
    (∀ s : String, pyInt s = none →
      validate_port_number s =
        .error "Invalid port configuration: invalid literal for int") ∧
    (∀ s : String, ∀ n : Int, pyInt s = some n → (n < 1 ∨ 65535 < n) →
      validate_port_number s =
        .error "Invalid port configuration: port is outside valid range (1-65535)") := by
  refine ⟨?_, ?_, ?_⟩
  · intro p h1 h2
    simp only [validate_port_number, pyInt_decimalString]
    rw [if_neg (by omega)]
  · intro s h
    simp [validate_port_number, h]
  · intro s n h hn
    simp only [validate_port_number, h]
    rw [if_pos hn]

/-- C3 witness: the theorem evaluated at the concrete ports 8080 (valid),
"abc" (unparseable), and "99999" (out of range). -/
theorem C3_witness :
    validate_port_number (decimalString 8080) =
      .ok ((8080 : Int), decide ((8080 : Int) < 1024)) ∧
    validate_port_number "abc" =
      .error "Invalid port configuration: invalid literal for int" ∧
    validate_port_number "99999" =
      .error "Invalid port configuration: port is outside valid range (1-65535)" :=
  ⟨C3_theorem.1 8080 (by decide) (by decide),
   C3_theorem.2.1 "abc" (by decide),
   C3_theorem.2.2 "99999" 99999 (by decide) (by decide)⟩

/-- C4: a startup configuration whose port validation fails (such as
PORT=99999) makes `python wsgi.py` exit with status 1 — the unhandled
`RuntimeError` from the factory reaches the installed excepthook and the
interpreter terminates with status 1 — and `create_app` (the request
router) is never called. -/
theorem C4_theorem (e : OsEnv) (p : Platform) (m : Option MemoryInfo)
    (h : exceptToOpt (validate_port_number (e.PORT.getD "8000")) = none) :
    (wsgi_main e p m).exitCode = some 1 ∧
    (wsgi_main e p m).routerStarted = false := by
  cases hv : validate_port_number (e.PORT.getD "8000") with
  | error msg => simp [wsgi_main, create_wsgi_application, hv]
  | ok v => rw [hv] at h; simp [exceptToOpt] at h

/-- C4 witness: the theorem at the concrete environment PORT=99999. -/
theorem C4_witness :
    (wsgi_main ⟨none, none, some "99999"⟩ ⟨true, true, fun _ => false⟩
      none).exitCode = some 1 ∧
    (wsgi_main ⟨none, none, some "99999"⟩ ⟨true, true, fun _ => false⟩
      none).routerStarted = false :=
  C4_theorem ⟨none, none, some "99999"⟩ ⟨true, true, fun _ => false⟩ none (by decide)

/-- C5 counterexample: the claim says a whitespace-only host string makes
host validation fail with a configuration error, and that a non-empty
host is returned trimmed.  On the code it is false: with HOST set to
three spaces (whitespace-only) the application is created successfully
and the host kept verbatim, and `create_app` is still called. -/
theorem C5_counterexample :
    (create_wsgi_application ⟨none, some "   ", none⟩).result =
      .ok ⟨"production", "   ", 8000⟩ ∧
    (create_wsgi_application ⟨none, some "   ", none⟩).createAppCalled = true := by
  constructor <;> rfl

/-- C5 (amended): `wsgi.py` performs no host validation at all.  The host
string is read from the HOST environment variable with default
`0.0.0.0` and used exactly as supplied — never trimmed, never checked
for emptiness — and whenever port validation succeeds the application is
created with that verbatim host. -/
theorem C5_theorem (e : OsEnv) :
    (∀ a : ConfiguredApp, (create_wsgi_application e).result = .ok a →
      a.host = e.HOST.getD "0.0.0.0") ∧
    (∀ v : Int × Bool, validate_port_number (e.PORT.getD "8000") = .ok v →
      (create_wsgi_application e).result =
        .ok ⟨e.FLASK_ENV.getD "production", e.HOST.getD "0.0.0.0", v.1⟩) := by
  constructor
  · intro a ha
    cases hv : validate_port_number (e.PORT.getD "8000") with
    | error msg => simp [create_wsgi_application, hv] at ha
    | ok v =>
      simp [create_wsgi_application, hv] at ha
      rw [← ha]
  · intro v hv
    simp [create_wsgi_application, hv]

/-- C5 witness: the theorem at a concrete untrimmed host value, which is
passed through verbatim. -/
theorem C5_witness :
    (create_wsgi_application ⟨none, some "  example.com ", none⟩).result =
      .ok ⟨"production", "  example.com ", 8000⟩ :=
  (C5_theorem ⟨none, some "  example.com ", none⟩).2 ((8000 : Int), false) (by rfl)

/-- C7 counterexample: the claim says a per-signal registration failure
still lets all remaining signals be registered.  On the code it is
false: on a platform where registering SIGTERM raises OSError (and
SIGUSR1/SIGUSR2 exist), the whole `try` block is aborted — no signal at
all is registered, in particular not SIGINT — and only the two warning
lines are logged. -/
theorem C7_counterexample :
    (setup_signal_handlers ⟨true, true, fun s => s == SIGTERM⟩).1 = [] ∧
    SIGINT ∉ (setup_signal_handlers ⟨true, true, fun s => s == SIGTERM⟩).1 ∧
    (setup_signal_handlers ⟨true, true, fun s => s == SIGTERM⟩).2.countP
      Effect.isLog = 2 := by
  decide

/-- C7 (amended): an OSError during signal registration is caught by
`setup_signal_handlers` and logged as a non-fatal warning, but it aborts
the registration sequence: exactly the signals registered before the
failing one keep their handler (none when SIGTERM itself fails).  Only
when no registration raises are all platform-supported signals
registered; a platform merely lacking the SIGUSR1/SIGUSR2 attributes
skips those without affecting the others. -/
theorem C7_theorem (p : Platform) :
    (∀ l : List Nat, ∀ e : String, register_all_raw p = .error (l, e) →
      (setup_signal_handlers p).1 = l ∧
      Effect.log .warning "Signal handler registration warning" ∈
        (setup_signal_handlers p).2) ∧
    (p.registerRaises SIGTERM = true → (setup_signal_handlers p).1 = []) ∧
    ((∀ s : Nat, p.registerRaises s = false) →
      (setup_signal_handlers p).1 =
        [SIGTERM, SIGINT] ++ (if p.hasSIGUSR1 then [SIGUSR1] else []) ++
          (if p.hasSIGUSR2 then [SIGUSR2] else [])) := by
  refine ⟨?_, ?_, ?_⟩
  · intro l e h
    simp [setup_signal_handlers, h]
  · intro h
    have hr : register_all_raw p = .error ([], "OSError") := by
      simp [register_all_raw, h]
    simp [setup_signal_handlers, hr]
  · intro h
    simp [register_all_raw, setup_signal_handlers, h]

/-- C7 witness: the theorem applied to a platform whose SIGTERM
registration raises (nothing registered) and to a platform where nothing
raises (all four signals registered). -/
theorem C7_witness :
    (setup_signal_handlers ⟨true, true, fun s => s == SIGTERM⟩).1 = [] ∧
    (setup_signal_handlers ⟨true, true, fun _ => false⟩).1 =
      [SIGTERM, SIGINT] ++ [SIGUSR1] ++ [SIGUSR2] := by
  constructor
  · exact (C7_theorem ⟨true, true, fun s => s == SIGTERM⟩).2.1 (by decide)
  · have h := (C7_theorem ⟨true, true, fun _ => false⟩).2.2 (fun _ => rfl)
    simpa using h

/-- C8 counterexample: the claim says every otherwise-unhandled exception
is logged, sampled, and routed into the shutdown sequencer.  On the code
it is false for `KeyboardInterrupt`: the installed excepthook delegates
it to `sys.__excepthook__` and performs no logging, no resource sample,
and no shutdown call. -/
theorem C8_counterexample :
    exception_handler none false none PyExc.keyboardInterrupt =
      [Effect.defaultExcepthook] ∧
    (exception_handler none false none PyExc.keyboardInterrupt).countP
      Effect.isShutdownCall = 0 ∧
    (exception_handler none false none PyExc.keyboardInterrupt).countP
      Effect.isLog = 0 := by
  decide

/-- C8 (amended): every otherwise-unhandled exception other than
`KeyboardInterrupt` is caught by the installed excepthook, logged
server-side, has a resource sample taken, and is routed into the same
`perform_graceful_shutdown` used for signals — exactly once, with cause
string `UNCAUGHT_EXCEPTION` (the code's label for the spec's
FATAL_ERROR) — after which the interpreter exits with status 1. -/
theorem C8_theorem (env : Option String) (fa : Bool) (m : Option MemoryInfo)
    (tn msg : String) :
    Effect.log .error "Uncaught Exception detected in WSGI application:" ∈
      (uncaught_exception_outcome env fa m (.other tn msg)).1 ∧
    Effect.sampleMemory "Uncaught Exception" ∈
      (uncaught_exception_outcome env fa m (.other tn msg)).1 ∧
    Effect.callGracefulShutdown "UNCAUGHT_EXCEPTION" ∈
      (uncaught_exception_outcome env fa m (.other tn msg)).1 ∧
    (uncaught_exception_outcome env fa m (.other tn msg)).1.countP
      Effect.isShutdownCall = 1 ∧
    (uncaught_exception_outcome env fa m (.other tn msg)).2 = 1 := by
  refine ⟨?_, ?_, ?_, ?_, rfl⟩
  · simp [uncaught_exception_outcome, exception_handler]
  · simp [uncaught_exception_outcome, exception_handler,
      sampleMemory_mem_log_memory_usage]
  · simp [uncaught_exception_outcome, exception_handler]
  · have h1 := countP_eq_zero_of_all_benign
      (log_memory_usage_all_benign "Uncaught Exception" m) benign_no_shutdownCall
    have h2 := countP_eq_zero_of_all_benign
      (perform_graceful_shutdown_all_benign fa m "UNCAUGHT_EXCEPTION")
      benign_no_shutdownCall
    by_cases hd : env = some "development" <;>
      simp [uncaught_exception_outcome, exception_handler, List.countP_cons,
        List.countP_append, Effect.isShutdownCall, h1, h2, hd]

/-- C9: when the process-metrics read fails, `log_memory_usage` logs a
warning and yields a resource sample with all numeric fields null
(labelled with the requested context); the exception is swallowed by the
`except` clause and never reaches the caller. -/
theorem C9_theorem (ctx : String) (m : Option MemoryInfo) (err : String)
    (h : psutil_read m = .error err) :
    Effect.log .warning "Memory usage monitoring error" ∈ (log_memory_usage ctx m).1 ∧
    (log_memory_usage ctx m).2 = ⟨none, none, none, none, ctx⟩ := by
  cases m with
  | some info => simp [psutil_read] at h
  | none => exact ⟨by simp [log_memory_usage, psutil_read], rfl⟩

/-- C9 witness: the theorem at the concrete failing read during the
`Graceful Shutdown` checkpoint. -/
theorem C9_witness :
    Effect.log .warning "Memory usage monitoring error" ∈
      (log_memory_usage "Graceful Shutdown" none).1 ∧
    (log_memory_usage "Graceful Shutdown" none).2 =
      ⟨none, none, none, none, "Graceful Shutdown"⟩ :=
  C9_theorem "Graceful Shutdown" none "psutil process metrics unavailable" rfl

/-- C10: for every GET /hello request (whatever the current timestamp),
the handler returns status 200 with a JSON body whose `message` field is
`Hello world` and whose `status` field is `success`. -/
theorem C10_theorem (now : String) :
    (hello_route_handler now none).status_code = 200 ∧
    List.lookup "message" (hello_route_handler now none).body =
      some "Hello world" ∧
    List.lookup "status" (hello_route_handler now none).body = some "success" :=
  ⟨rfl, rfl, rfl⟩

end Wsgi
